import Mathlib

/-!
Verification of the promptflow execution engine against its specification.

Each Lean definition below is a shallow embedding of a function of the
repository (file and symbol named in its doc comment).  Components of the
repository whose implementation files are absent (only their tests or callers
are available) are modelled from the specification; their doc comments start
with `Modelled from the spec:`.
-/

/-! ## Decimal rendering of integers

Python renders integers into f-strings in decimal (`f"{line_number}"`).
`decRepr` is that decimal rendering, as a list of characters. -/

/-- The character for a single decimal digit `n < 10` (Python decimal
formatting of one digit). -/
def digitChar (n : Nat) : Char := Char.ofNat (48 + n)

/-- Decimal rendering of a natural number, most significant digit first
(the way Python formats a nonnegative `int` into an f-string). -/
def decRepr (n : Nat) : List Char :=
  if _h : n < 10 then [digitChar n]
  else decRepr (n / 10) ++ [digitChar (n % 10)]
termination_by n
decreasing_by
  exact Nat.div_lt_self (by omega) (by omega)

/-- Decimal rendering as a `String`. -/
def natStr (n : Nat) : String := String.mk (decRepr n)

theorem digitChar_toNat (n : Nat) (h : n < 10) : (digitChar n).toNat = 48 + n := by
  interval_cases n <;> decide

theorem digitChar_lt_58 (n : Nat) (h : n < 10) : (digitChar n).toNat < 58 := by
  rw [digitChar_toNat n h]; omega

theorem decRepr_lt_58 (n : Nat) : ∀ c ∈ decRepr n, c.toNat < 58 := by
  induction n using Nat.strong_induction_on with
  | _ n ih =>
    intro c hc
    rw [decRepr] at hc
    by_cases h : n < 10
    · simp [h] at hc
      exact hc ▸ digitChar_lt_58 n h
    · simp [h] at hc
      rcases hc with hc | hc
      · exact ih (n / 10) (Nat.div_lt_self (by omega) (by omega)) c hc
      · exact hc ▸ digitChar_lt_58 (n % 10) (Nat.mod_lt n (by omega))

theorem underscore_not_mem_decRepr (n : Nat) : '_' ∉ decRepr n := by
  intro h
  have := decRepr_lt_58 n '_' h
  revert this; decide

/-- Read a digit list back as a number (base-10 evaluation); inverse of
`decRepr`, used to prove that decimal rendering is injective. -/
def decVal (l : List Char) : Nat :=
  l.foldl (fun a c => 10 * a + (c.toNat - 48)) 0

theorem decVal_decRepr (n : Nat) : decVal (decRepr n) = n := by
  induction n using Nat.strong_induction_on with
  | _ n ih =>
    rw [decRepr]
    by_cases h : n < 10
    · simp [h, decVal, digitChar_toNat n h]
    · rw [dif_neg h]
      have hd := ih (n / 10) (Nat.div_lt_self (by omega) (by omega))
      simp only [decVal, List.foldl_append] at hd ⊢
      rw [hd, List.foldl, List.foldl, digitChar_toNat (n % 10) (Nat.mod_lt n (by omega))]
      omega

theorem decRepr_injective {m n : Nat} (h : decRepr m = decRepr n) : m = n := by
  have := decVal_decRepr m
  rw [h, decVal_decRepr] at this
  omega

theorem natStr_no_underscore (n : Nat) : '_' ∉ (natStr n).data :=
  underscore_not_mem_decRepr n

/-! ## List splitting at the last separator -/

/-- Splitting a character list at a separator that occurs in neither suffix is
unambiguous. -/
theorem append_sep_inj :
    ∀ (a : List Char) (b t₁ t₂ : List Char), '_' ∉ t₁ → '_' ∉ t₂ →
      a ++ '_' :: t₁ = b ++ '_' :: t₂ → a = b ∧ t₁ = t₂ := by
  intro a
  induction a with
  | nil =>
    intro b t₁ t₂ h₁ h₂ heq
    cases b with
    | nil => simpa using heq
    | cons c b' =>
      simp only [List.nil_append, List.cons_append, List.cons.injEq] at heq
      exact absurd (heq.2 ▸ List.mem_append_right b' (List.mem_cons_self _ _)) h₁
  | cons c a' ih =>
    intro b t₁ t₂ h₁ h₂ heq
    cases b with
    | nil =>
      simp only [List.cons_append, List.nil_append, List.cons.injEq] at heq
      exact absurd (heq.2.symm ▸ List.mem_append_right a' (List.mem_cons_self _ _)) h₂
    | cons d b' =>
      simp only [List.cons_append, List.cons.injEq] at heq
      obtain ⟨h₃, h₄⟩ := ih b' t₁ t₂ h₁ h₂ heq.2
      exact ⟨by rw [heq.1, h₃], h₄⟩

theorem string_ext {s t : String} (h : s.data = t.data) : s = t := by
  cases s; cases t; exact congrArg String.mk h

/-! ## Node run id generation

Embeds `FlowExecutionContext._generate_node_run_id`
(`promptflow/_core/flow_execution_context.py`):

```python
def _generate_node_run_id(self, node: Node) -> str:
    if node.aggregation:
        return f"{self._run_id}_{node.name}_reduce"
    if self._line_number is None:
        return f"{self._run_id}_{node.name}_{uuid.uuid4()}"
    return f"{self._run_id}_{node.name}_{self._line_number}"
```

The fresh `uuid.uuid4()` of the `line_number is None` branch is passed in as
an explicit argument. -/

def generate_node_run_id (run_id : String) (node_name : String) (aggregation : Bool)
    (line_number : Option Nat) (uuid : String) : String :=
  if aggregation then run_id ++ "_" ++ node_name ++ "_reduce"
  else
    match line_number with
    | none => run_id ++ "_" ++ node_name ++ "_" ++ uuid
    | some l => run_id ++ "_" ++ node_name ++ "_" ++ natStr l

theorem node_run_id_data (r n : String) (l : Nat) :
    (r ++ "_" ++ n ++ "_" ++ natStr l).data = (r.data ++ '_' :: n.data) ++ '_' :: decRepr l := by
  simp [natStr, String.data_append, List.append_assoc, show ("_" : String).data = ['_'] from rfl]

theorem node_run_id_reduce_data (r n : String) :
    (r ++ "_" ++ n ++ "_reduce").data = (r.data ++ '_' :: n.data) ++ '_' :: "reduce".data := by
  simp [String.data_append, List.append_assoc, show ("_" : String).data = ['_'] from rfl,
    show ("_reduce" : String).data = '_' :: "reduce".data from rfl]

/-- C2: node run ids follow the schema
`"{flow_run_id}_{node}_{line_number}"` (non-aggregation, line present),
`"{flow_run_id}_{node}_{uuid}"` (non-aggregation, no line number) and
`"{flow_run_id}_{node}_reduce"` (aggregation); consequently, within one flow
run, two distinct (line, node) pairs never share a run id — this covers both
two line-bearing pairs and a line-bearing pair against an aggregation node. -/
theorem node_run_id_schema_and_unique :
    (∀ r n l u, generate_node_run_id r n true l u = r ++ "_" ++ n ++ "_reduce")
    ∧ (∀ r n u, generate_node_run_id r n false none u = r ++ "_" ++ n ++ "_" ++ u)
    ∧ (∀ r n l u, generate_node_run_id r n false (some l) u = r ++ "_" ++ n ++ "_" ++ natStr l)
    ∧ (∀ r n₁ l₁ u₁ n₂ l₂ u₂,
        generate_node_run_id r n₁ false (some l₁) u₁ = generate_node_run_id r n₂ false (some l₂) u₂ →
        n₁ = n₂ ∧ l₁ = l₂)
    ∧ (∀ r n₁ l₁ u₁ n₂ l₂ u₂,
        generate_node_run_id r n₁ true l₁ u₁ ≠ generate_node_run_id r n₂ false (some l₂) u₂) := by
  refine ⟨fun r n l u => rfl, fun r n u => rfl, fun r n l u => rfl, ?_, ?_⟩
  · intro r n₁ l₁ u₁ n₂ l₂ u₂ h
    simp only [generate_node_run_id, if_neg Bool.false_ne_true] at h
    have hd := congrArg String.data h
    rw [node_run_id_data, node_run_id_data] at hd
    obtain ⟨h₁, h₂⟩ :=
      append_sep_inj _ _ _ _ (underscore_not_mem_decRepr l₁) (underscore_not_mem_decRepr l₂) hd
    have h₃ : '_' :: n₁.data = '_' :: n₂.data := List.append_cancel_left h₁
    have h₄ : n₁.data = n₂.data := by injection h₃
    exact ⟨string_ext h₄, decRepr_injective h₂⟩
  · intro r n₁ l₁ u₁ n₂ l₂ u₂ h
    simp only [generate_node_run_id, if_neg Bool.false_ne_true, if_true] at h
    have hd := congrArg String.data h
    rw [node_run_id_reduce_data, node_run_id_data] at hd
    obtain ⟨h₁, h₂⟩ :=
      append_sep_inj _ _ _ _ (by decide) (underscore_not_mem_decRepr l₂) hd
    have hr : 'r' ∈ decRepr l₂ := by
      rw [← h₂]; decide
    have := decRepr_lt_58 l₂ 'r' hr
    revert this; decide

theorem node_run_id_schema_and_unique_witness :
    generate_node_run_id "run1" "nodeA" true none "u" = "run1_nodeA_reduce"
    ∧ generate_node_run_id "run1" "nodeA" false (some 3) "u" = "run1_nodeA_3"
    ∧ ("nodeA" = "nodeA" ∧ (3 : Nat) = 3)
    ∧ generate_node_run_id "run1" "agg" true none "u"
        ≠ generate_node_run_id "run1" "agg" false (some 0) "u" := by
  refine ⟨?_, ?_, ?_, ?_⟩
  · rw [node_run_id_schema_and_unique.1 "run1" "nodeA" none "u"]; rfl
  · rw [node_run_id_schema_and_unique.2.2.1 "run1" "nodeA" 3 "u"]
    simp [natStr, decRepr, digitChar]
  · exact node_run_id_schema_and_unique.2.2.2.1 "run1" "nodeA" 3 "u" "nodeA" 3 "u" rfl
  · exact node_run_id_schema_and_unique.2.2.2.2 "run1" "agg" none "u" "agg" 0 "u"

/-! ## Node scheduler concurrency cap

Embeds `FlowNodesScheduler.__init__` (`promptflow/executor/_flow_nodes_scheduler.py`):
`self._node_concurrency = min(node_concurrency, DEFAULT_CONCURRENCY_FLOW)`, and
`execute`, which opens its `ThreadPoolExecutor` with
`max_workers=self._node_concurrency`. -/

def DEFAULT_CONCURRENCY_FLOW : Nat := 16

structure FlowNodesScheduler where
  node_concurrency : Nat

def FlowNodesScheduler.init (node_concurrency : Nat) : FlowNodesScheduler :=
  ⟨min node_concurrency DEFAULT_CONCURRENCY_FLOW⟩

/-- The `max_workers` value `execute` hands to its thread pool. -/
def FlowNodesScheduler.execute_max_workers (s : FlowNodesScheduler) : Nat :=
  s.node_concurrency

/-- C8: for every configured node concurrency value, the scheduler's thread
pool runs with `max_workers = min(configured_concurrency, 16)`. -/
theorem scheduler_max_workers_min_16 (node_concurrency : Nat) :
    (FlowNodesScheduler.init node_concurrency).execute_max_workers
      = min node_concurrency 16 := rfl

/-! ## Run status

Embeds `Status` and `Status.is_terminated` (`promptflow/contracts/run_info.py`). -/

inductive Status where
  | Running
  | Preparing
  | Completed
  | Failed
  | Bypassed
  | Canceled
  | NotStarted
  | CancelRequested
deriving DecidableEq

/-- The enum member's string value. -/
def Status.value : Status → String
  | .Running => "Running"
  | .Preparing => "Preparing"
  | .Completed => "Completed"
  | .Failed => "Failed"
  | .Bypassed => "Bypassed"
  | .Canceled => "Canceled"
  | .NotStarted => "NotStarted"
  | .CancelRequested => "CancelRequested"

/-- Looking an enum member up by value (`Status(value)` in Python); `none`
models the `ValueError` raised for an unknown value. -/
def Status.ofValue (v : String) : Option Status :=
  if v = "Running" then some .Running
  else if v = "Preparing" then some .Preparing
  else if v = "Completed" then some .Completed
  else if v = "Failed" then some .Failed
  else if v = "Bypassed" then some .Bypassed
  else if v = "Canceled" then some .Canceled
  else if v = "NotStarted" then some .NotStarted
  else if v = "CancelRequested" then some .CancelRequested
  else none

theorem Status.ofValue_value (s : Status) : Status.ofValue s.value = some s := by
  cases s <;> rfl

/-- `Status.is_terminated`: membership in `{Completed, Failed, Bypassed, Canceled}`. -/
def Status.is_terminated (s : Status) : Bool :=
  s = .Completed ∨ s = .Failed ∨ s = .Bypassed ∨ s = .Canceled

/-! ## Cache manager and `invoke_tool`

`FlowExecutionContext.invoke_tool` and `_persist_cache`
(`promptflow/_core/flow_execution_context.py`) are embedded below.  The cache
manager itself (`promptflow/_core/cache_manager.py`) is not part of the
sources; its operations are modelled from the spec (§4.3). -/

/-- Embeds `CacheInfo`: `{hash_id, cache_string}`, with a `None`-able hash id. -/
structure CacheInfo where
  hash_id : Option String
  cache_string : String
deriving DecidableEq

/-- Modelled from the spec: `persist_result` records a
`(hash_id → {run_id, flow_run_id, result})` entry in the external store (§4.3);
this is one such entry. -/
structure CacheEntry (V : Type) where
  run_id : String
  flow_run_id : String
  result : V
deriving DecidableEq

/-- Modelled from the spec: the cache manager's process-wide external key/value
store, indexed by `hash_id` (§3 Ownership). -/
abbrev Cache (V : Type) := List (String × CacheEntry V)

/-- Embeds `CacheResult`: `{hit_cache, result?, cached_run_id?, cached_flow_run_id?}`. -/
structure CacheResult (V : Type) where
  hit_cache : Bool
  result : Option V
  cached_run_id : Option String
  cached_flow_run_id : Option String

/-- The index lookup underlying `get_cache_result`. -/
def cache_lookup (cache : Cache V) (ci : CacheInfo) : Option (CacheEntry V) :=
  ci.hash_id.bind (fun h => cache.lookup h)

/-- Modelled from the spec: `get_cache_result(cache_info)` looks up the
external index and returns `hit_cache=false` if the entry is missing (§4.3). -/
def get_cache_result (cache : Cache V) (ci : CacheInfo) : CacheResult V :=
  match cache_lookup cache ci with
  | some e => ⟨true, some e.result, some e.run_id, some e.flow_run_id⟩
  | none => ⟨false, none, none, none⟩

/-- Embeds `FlowExecutionContext._persist_cache`: persists only when
`cache_info` is truthy with a non-`None`, non-empty `hash_id`; the recorded
entry is the spec's `(hash_id → {run_id, flow_run_id, result})`. -/
def persist_cache (cache : Cache V) (ci : Option CacheInfo)
    (run_id flow_run_id : String) (result : V) : Cache V :=
  match ci with
  | some info =>
    match info.hash_id with
    | some h => if 0 < h.length then (h, ⟨run_id, flow_run_id, result⟩) :: cache else cache
    | none => cache
  | none => cache

/-- Embeds flow `Node` (`promptflow/contracts/flow.py` is absent from the
sources; the fields are the ones `flow_execution_context.py` reads:
`name`, `aggregation`, `enable_cache`). -/
structure Node where
  name : String
  aggregation : Bool
  enable_cache : Bool
deriving DecidableEq

/-- The observable outcome of one `invoke_tool` call: the returned value or
propagated exception, the cache state afterwards, whether the tool callable
`f` was invoked, and the cached ids assigned to the node's run info. -/
structure InvokeOutcome (V : Type) where
  result : Except String V
  cache : Cache V
  tool_invoked : Bool
  cached_run_id : Option String
  cached_flow_run_id : Option String

/-- Embeds `FlowExecutionContext.invoke_tool`.  `f` is the tool callable's
behaviour (`.ok` its return value, `.error` the exception it raises);
`cache_info` is the value `calculate_cache_info` returned.  On a hit the
cached result is returned without calling `f`; otherwise `f` runs and, when
`node.enable_cache` is set and the call succeeded, `_persist_cache` records
the result. -/
def invoke_tool (node : Node) (f : Except String V) (cache : Cache V)
    (cache_info : Option CacheInfo) (run_id flow_run_id : String) : InvokeOutcome V :=
  let hitEntry : Option (CacheEntry V) :=
    if node.enable_cache then cache_info.bind (cache_lookup cache) else none
  match hitEntry with
  | some e =>
      { result := .ok e.result, cache := cache, tool_invoked := false,
        cached_run_id := some e.run_id, cached_flow_run_id := some e.flow_run_id }
  | none =>
      match f with
      | .ok v =>
          { result := .ok v,
            cache := if node.enable_cache then
                persist_cache cache cache_info run_id flow_run_id v
              else cache,
            tool_invoked := true, cached_run_id := none, cached_flow_run_id := none }
      | .error err =>
          { result := .error err, cache := cache, tool_invoked := true,
            cached_run_id := none, cached_flow_run_id := none }

/-- C1, counterexample to "cache misses do not alter the cache": a node with
`enable_cache` whose lookup misses (empty cache, valid hash id) ends with a
non-empty cache — `invoke_tool` persists the tool result after the miss. -/
theorem invoke_tool_miss_alters_cache :
    (invoke_tool ⟨"n", false, true⟩ (Except.ok (42 : Nat)) []
        (some ⟨some "h1", "cs"⟩) "r" "fr").cache ≠ ([] : Cache Nat) := by
  decide

/-- C1 (amended): for a node executed via `invoke_tool` with `enable_cache`
set: a cache hit returns the previously recorded output without invoking the
tool and leaves the cache unchanged; a cache miss invokes the tool and, when
the tool succeeds, persists its result via `_persist_cache` — prepending one
entry under the (valid) hash id and leaving existing entries in place — while
a failing tool leaves the cache unchanged. -/
theorem invoke_tool_cache_semantics {V : Type} (node : Node) (f : Except String V)
    (cache : Cache V) (ci : CacheInfo) (run_id flow_run_id : String)
    (hec : node.enable_cache = true) :
    (∀ e, cache_lookup cache ci = some e →
        invoke_tool node f cache (some ci) run_id flow_run_id
          = { result := .ok e.result, cache := cache, tool_invoked := false,
              cached_run_id := some e.run_id, cached_flow_run_id := some e.flow_run_id })
    ∧ (cache_lookup cache ci = none →
        (invoke_tool node f cache (some ci) run_id flow_run_id).tool_invoked = true
        ∧ (∀ v, f = .ok v →
            (invoke_tool node f cache (some ci) run_id flow_run_id).cache
              = persist_cache cache (some ci) run_id flow_run_id v)
        ∧ (∀ err, f = .error err →
            (invoke_tool node f cache (some ci) run_id flow_run_id).cache = cache))
    ∧ (∀ v h, ci.hash_id = some h → 0 < h.length →
        persist_cache cache (some ci) run_id flow_run_id v
          = (h, ⟨run_id, flow_run_id, v⟩) :: cache) := by
  refine ⟨?_, ?_, ?_⟩
  · intro e he
    simp [invoke_tool, hec, he]
  · intro hmiss
    refine ⟨?_, ?_, ?_⟩
    · cases f <;> simp [invoke_tool, hec, hmiss]
    · intro v hv
      subst hv
      simp [invoke_tool, hec, hmiss]
    · intro err herr
      subst herr
      simp [invoke_tool, hec, hmiss]
  · intro v h hh hlen
    simp [persist_cache, hh, hlen]

theorem invoke_tool_cache_semantics_witness :
    invoke_tool (V := Nat) ⟨"n", false, true⟩ (Except.ok 0)
        [("h1", ⟨"rid", "fid", 7⟩)] (some ⟨some "h1", "cs"⟩) "r" "fr"
      = { result := .ok 7, cache := [("h1", ⟨"rid", "fid", 7⟩)], tool_invoked := false,
          cached_run_id := some "rid", cached_flow_run_id := some "fid" } :=
  (invoke_tool_cache_semantics ⟨"n", false, true⟩ (Except.ok 0)
      [("h1", ⟨"rid", "fid", 7⟩)] ⟨some "h1", "cs"⟩ "r" "fr" rfl).1
    ⟨"rid", "fid", 7⟩ (by simp [cache_lookup, List.lookup])

/-! ## Flow run info and local storage of line run records

Embeds `FlowRunInfo` (`promptflow/contracts/run_info.py`) and
`LineRunRecord` / `LocalStorageOperations.persist_flow_run`
(`promptflow/_sdk/operations/_local_storage_operations.py`).

Payload values (inputs, outputs, metrics, …) are abstracted by a type
parameter `V`; `datetime` values are abstracted to `Nat` timestamps.
The artifact folder is modelled as an association list from file name to file
content; a file's content is a single `LineRunRecord`, because
`LineRunRecord.dump` opens the file with mode `"w"` (truncating) and writes
exactly one JSON object. -/

structure FlowRunInfo (V : Type) where
  run_id : Option String
  status : Status
  error : Option V
  inputs : Option V
  output : Option V
  metrics : Option V
  request : Option V
  parent_run_id : Option String
  root_run_id : Option String
  source_run_id : Option String
  flow_id : Option String
  start_time : Option Nat
  end_time : Option Nat
  index : Option Nat
  api_calls : Option V
  variant_id : String
  name : String
  description : String
  tags : Option V
  system_metrics : Option V
  result : Option V
  upload_metrics : Bool
deriving DecidableEq

/-- Embeds `LineRunRecord`.  The `run_info` field holds the serialized
`FlowRunInfo`; serialization is injective, so the record keeps the
`FlowRunInfo` value itself. -/
structure LineRunRecord (V : Type) where
  line_number : Option Nat
  run_info : FlowRunInfo V
  start_time : Nat
  end_time : Nat
  name : String
  description : String
  status : String
  tags : Option V
deriving DecidableEq

/-- Embeds `LineRunRecord.from_flow_run_info`; `none` models the
`AttributeError` raised by `None.isoformat()` when a timestamp is missing. -/
def LineRunRecord.from_flow_run_info (r : FlowRunInfo V) : Option (LineRunRecord V) :=
  match r.start_time, r.end_time with
  | some ts, some te =>
      some ⟨r.index, r, ts, te, r.name, r.description, r.status.value, r.tags⟩
  | _, _ => none

/-- Python `str.zfill`: pad on the left with `'0'` up to the given width. -/
def zfill (s : String) (width : Nat) : String :=
  String.mk (List.replicate (width - s.data.length) '0' ++ s.data)

/-- The flow_artifacts folder: file name, and the single JSON object the file
holds after the last truncating write. -/
abbrev ArtifactFolder (V : Type) := List (String × LineRunRecord V)

/-- A truncating write (`open(path, mode="w")` followed by one `json.dump`):
the new content replaces whatever the file held. -/
def write_file (files : List (String × α)) (name : String) (content : α) :
    List (String × α) :=
  (name, content) :: files.filter (fun kv => kv.1 != name)

/-- The `flow_artifacts` block file name `persist_flow_run` computes:
`f"{str(lower).zfill(9)}_{str(upper).zfill(9)}.jsonl"`. -/
def block_filename (batch_size : Nat) (line_number : Nat) : String :=
  let lower := line_number / batch_size * batch_size
  let upper := lower + batch_size - 1
  zfill (natStr lower) 9 ++ "_" ++ zfill (natStr upper) 9 ++ ".jsonl"

/-- Embeds `LocalStorageOperations.persist_flow_run`.  Non-terminated runs
return before any write.  `none` models the uncaught runtime errors of the
write path (missing timestamp, or `None // LOCAL_STORAGE_BATCH_SIZE` when the
index is `None`).  `batch_size` stands for the `LOCAL_STORAGE_BATCH_SIZE`
constant, whose defining module is not among the sources. -/
def persist_flow_run (batch_size : Nat) (files : ArtifactFolder V)
    (run_info : FlowRunInfo V) : Option (ArtifactFolder V) :=
  if !run_info.status.is_terminated then some files
  else
    match LineRunRecord.from_flow_run_info run_info with
    | none => none
    | some rec =>
      match rec.line_number with
      | none => none
      | some ln => some (write_file files (block_filename batch_size ln) rec)

/-- C10: `persist_flow_run` is a no-op for a run whose status is not terminal:
the artifact folder is returned unchanged and nothing is written. -/
theorem persist_flow_run_non_terminal_noop {V : Type} (batch_size : Nat)
    (files : ArtifactFolder V) (run_info : FlowRunInfo V)
    (h : run_info.status.is_terminated = false) :
    persist_flow_run batch_size files run_info = some files := by
  simp [persist_flow_run, h]

/-- A sample line run used by concrete instances below. -/
def mkRun (i : Nat) (st : Status) : FlowRunInfo Nat :=
  { run_id := some ("r_" ++ natStr i), status := st, error := none, inputs := none,
    output := none, metrics := none, request := none, parent_run_id := none,
    root_run_id := none, source_run_id := none, flow_id := some "f",
    start_time := some 0, end_time := some 1, index := some i, api_calls := none,
    variant_id := "", name := "", description := "", tags := none,
    system_metrics := none, result := none, upload_metrics := false }

theorem persist_flow_run_non_terminal_noop_witness :
    persist_flow_run 2 [] (mkRun 0 .Running) = some [] :=
  persist_flow_run_non_terminal_noop 2 [] (mkRun 0 .Running) (by decide)

theorem natStr_0 : natStr 0 = "0" := by simp [natStr, decRepr, digitChar]
theorem natStr_1 : natStr 1 = "1" := by simp [natStr, decRepr, digitChar]
theorem natStr_2 : natStr 2 = "2" := by simp [natStr, decRepr, digitChar]
theorem natStr_3 : natStr 3 = "3" := by simp [natStr, decRepr, digitChar]

theorem block_filename_2_0 : block_filename 2 0 = "000000000_000000001.jsonl" := by
  simp only [block_filename]; norm_num; rw [natStr_0, natStr_1]; decide

theorem block_filename_2_1 : block_filename 2 1 = "000000000_000000001.jsonl" := by
  simp only [block_filename]; norm_num; rw [natStr_0, natStr_1]; decide

theorem block_filename_2_2 : block_filename 2 2 = "000000002_000000003.jsonl" := by
  simp only [block_filename]; norm_num; rw [natStr_2, natStr_3]; decide

theorem block_filename_2_3 : block_filename 2 3 = "000000002_000000003.jsonl" := by
  simp only [block_filename]; norm_num; rw [natStr_2, natStr_3]; decide

/-- The line run record `persist_flow_run` writes for `mkRun i .Completed`. -/
def line_record (i : Nat) : LineRunRecord Nat :=
  ⟨some i, mkRun i .Completed, 0, 1, "", "", "Completed", none⟩

theorem persist_mkRun (files : ArtifactFolder Nat) (i : Nat) :
    persist_flow_run 2 files (mkRun i .Completed)
      = some (write_file files (block_filename 2 i) (line_record i)) := rfl

/-- C4, counterexample: with `LOCAL_STORAGE_BATCH_SIZE = 2`, persisting lines 0
and 1 leaves the shared block file `000000000_000000001.jsonl` holding only the
line-1 record — `LineRunRecord.dump` truncate-writes one record (and takes no
lock), so the block file does not contain the 2 records of its block. -/
theorem persist_block_file_single_record :
    ((persist_flow_run 2 [] (mkRun 0 .Completed)).bind fun fs =>
        persist_flow_run 2 fs (mkRun 1 .Completed))
      = some [("000000000_000000001.jsonl", line_record 1)]
    ∧ line_record 1 ≠ line_record 0 := by
  constructor
  · rw [persist_mkRun, Option.bind]
    rw [persist_mkRun]
    rw [block_filename_2_0, block_filename_2_1]
    simp [write_file]
  · intro h
    have := congrArg LineRunRecord.line_number h
    simp [line_record] at this

/-- C4 (amended): with `LOCAL_STORAGE_BATCH_SIZE = 2`, persisting 4 lines
produces exactly the two block files `000000000_000000001.jsonl` and
`000000002_000000003.jsonl`, but each holds exactly one line-run record — the
last one written to its block (lines 1 and 3) — because `LineRunRecord.dump`
opens the file in truncating mode and writes a single record, with no file
lock serializing writers of a shared block file. -/
theorem persist_four_lines_two_block_files :
    ((persist_flow_run 2 [] (mkRun 0 .Completed)).bind fun fs =>
      (persist_flow_run 2 fs (mkRun 1 .Completed)).bind fun fs =>
      (persist_flow_run 2 fs (mkRun 2 .Completed)).bind fun fs =>
      persist_flow_run 2 fs (mkRun 3 .Completed))
      = some [("000000002_000000003.jsonl", line_record 3),
              ("000000000_000000001.jsonl", line_record 1)] := by
  rw [persist_mkRun, Option.bind]
  rw [persist_mkRun, Option.bind]
  rw [persist_mkRun, Option.bind]
  rw [persist_mkRun]
  rw [block_filename_2_0, block_filename_2_1, block_filename_2_2, block_filename_2_3]
  simp [write_file]

/-! ## Run info serialization round trip

`RunInfo.deserialize` and `FlowRunInfo.deserialize`
(`promptflow/contracts/run_info.py`) are embedded below.  The forward
serialization (`promptflow/_utils/dataclass_serializer.py`) is not among the
sources; it is modelled from the spec: a field-by-field JSON dict with the
status enum replaced by its string value and datetimes by their ISO strings
(ISO rendering/parsing of a timestamp is modelled as the identity on the
abstract `Nat` timestamp). -/

/-- Embeds the node-level `RunInfo` dataclass. -/
structure RunInfo (V : Type) where
  node : Option String
  flow_run_id : Option String
  run_id : Option String
  status : Status
  inputs : Option V
  output : Option V
  metrics : Option V
  error : Option V
  parent_run_id : Option String
  start_time : Option Nat
  end_time : Option Nat
  index : Option Nat
  api_calls : Option V
  variant_id : String
  cached_run_id : Option String
  cached_flow_run_id : Option String
  logs : Option V
  system_metrics : Option V
  result : Option V
deriving DecidableEq

/-- The serialized (JSON dict) form of `RunInfo`: every key present, the
status as its string value. -/
structure RunInfoJ (V : Type) where
  node : Option String
  flow_run_id : Option String
  run_id : Option String
  status : String
  inputs : Option V
  output : Option V
  metrics : Option V
  error : Option V
  parent_run_id : Option String
  start_time : Option Nat
  end_time : Option Nat
  index : Option Nat
  api_calls : Option V
  variant_id : String
  cached_run_id : Option String
  cached_flow_run_id : Option String
  logs : Option V
  system_metrics : Option V
  result : Option V
deriving DecidableEq

/-- Modelled from the spec: JSON serialization of a `RunInfo` (field by field;
`Status` by its value, datetimes by ISO strings). -/
def serialize_run_info (r : RunInfo V) : RunInfoJ V :=
  { node := r.node, flow_run_id := r.flow_run_id, run_id := r.run_id,
    status := r.status.value, inputs := r.inputs, output := r.output,
    metrics := r.metrics, error := r.error, parent_run_id := r.parent_run_id,
    start_time := r.start_time, end_time := r.end_time, index := r.index,
    api_calls := r.api_calls, variant_id := r.variant_id,
    cached_run_id := r.cached_run_id, cached_flow_run_id := r.cached_flow_run_id,
    logs := r.logs, system_metrics := r.system_metrics, result := r.result }

/-- Embeds `RunInfo.deserialize`.  `Status(data.get("status"))` raises
`ValueError` on an unknown value and `parser.parse(data.get("start_time"))`
raises `TypeError` when the value is `None`; both are modelled as `.error`. -/
def RunInfo.deserialize (d : RunInfoJ V) : Except String (RunInfo V) :=
  match Status.ofValue d.status with
  | none => .error "ValueError"
  | some st =>
    match d.start_time with
    | none => .error "TypeError"
    | some ts =>
      match d.end_time with
      | none => .error "TypeError"
      | some te =>
        .ok ⟨d.node, d.flow_run_id, d.run_id, st, d.inputs, d.output, d.metrics,
          d.error, d.parent_run_id, some ts, some te, d.index, d.api_calls,
          d.variant_id, d.cached_run_id, d.cached_flow_run_id, d.logs,
          d.system_metrics, d.result⟩

/-- The serialized (JSON dict) form of `FlowRunInfo`. -/
structure FlowRunInfoJ (V : Type) where
  run_id : Option String
  status : String
  error : Option V
  inputs : Option V
  output : Option V
  metrics : Option V
  request : Option V
  parent_run_id : Option String
  root_run_id : Option String
  source_run_id : Option String
  flow_id : Option String
  start_time : Option Nat
  end_time : Option Nat
  index : Option Nat
  api_calls : Option V
  variant_id : String
  name : String
  description : String
  tags : Option V
  system_metrics : Option V
  result : Option V
  upload_metrics : Bool
deriving DecidableEq

/-- Modelled from the spec: JSON serialization of a `FlowRunInfo`. -/
def serialize_flow_run_info (r : FlowRunInfo V) : FlowRunInfoJ V :=
  { run_id := r.run_id, status := r.status.value, error := r.error,
    inputs := r.inputs, output := r.output, metrics := r.metrics,
    request := r.request, parent_run_id := r.parent_run_id,
    root_run_id := r.root_run_id, source_run_id := r.source_run_id,
    flow_id := r.flow_id, start_time := r.start_time, end_time := r.end_time,
    index := r.index, api_calls := r.api_calls, variant_id := r.variant_id,
    name := r.name, description := r.description, tags := r.tags,
    system_metrics := r.system_metrics, result := r.result,
    upload_metrics := r.upload_metrics }

/-- Embeds `FlowRunInfo.deserialize`. -/
def FlowRunInfo.deserialize (d : FlowRunInfoJ V) : Except String (FlowRunInfo V) :=
  match Status.ofValue d.status with
  | none => .error "ValueError"
  | some st =>
    match d.start_time with
    | none => .error "TypeError"
    | some ts =>
      match d.end_time with
      | none => .error "TypeError"
      | some te =>
        .ok ⟨d.run_id, st, d.error, d.inputs, d.output, d.metrics, d.request,
          d.parent_run_id, d.root_run_id, d.source_run_id, d.flow_id, some ts,
          some te, d.index, d.api_calls, d.variant_id, d.name, d.description,
          d.tags, d.system_metrics, d.result, d.upload_metrics⟩

/-- C9, counterexample: a `RunInfo` still running (no `end_time`) does not
round trip — `deserialize` fails on `parser.parse(None)` instead of returning
an equivalent object. -/
theorem run_info_roundtrip_fails_without_end_time :
    RunInfo.deserialize (serialize_run_info (V := Nat)
        ⟨some "n", some "f", some "r", .Running, none, none, none, none, none,
          some 0, none, none, none, "", none, none, none, none, none⟩)
      = .error "TypeError" := rfl

/-- C9 (amended): every `RunInfo` and every `FlowRunInfo` whose `start_time`
and `end_time` are set round trips through serialization and
`RunInfo.deserialize` / `FlowRunInfo.deserialize` to an equal object. -/
theorem run_info_roundtrip (V : Type) (r : RunInfo V) (f : FlowRunInfo V)
    (h₁ : r.start_time.isSome = true) (h₂ : r.end_time.isSome = true)
    (h₃ : f.start_time.isSome = true) (h₄ : f.end_time.isSome = true) :
    RunInfo.deserialize (serialize_run_info r) = .ok r
    ∧ FlowRunInfo.deserialize (serialize_flow_run_info f) = .ok f := by
  constructor
  · rcases hs : r.start_time with _ | ts
    · rw [hs] at h₁; simp at h₁
    rcases he : r.end_time with _ | te
    · rw [he] at h₂; simp at h₂
    cases r
    simp_all [serialize_run_info, RunInfo.deserialize, Status.ofValue_value]
  · rcases hs : f.start_time with _ | ts
    · rw [hs] at h₃; simp at h₃
    rcases he : f.end_time with _ | te
    · rw [he] at h₄; simp at h₄
    cases f
    simp_all [serialize_flow_run_info, FlowRunInfo.deserialize, Status.ofValue_value]

theorem run_info_roundtrip_witness :
    RunInfo.deserialize (serialize_run_info (V := Nat)
        ⟨some "n", some "f", some "r", .Completed, none, some 5, none, none, none,
          some 0, some 1, some 2, none, "v", none, none, none, none, none⟩)
      = .ok ⟨some "n", some "f", some "r", .Completed, none, some 5, none, none, none,
          some 0, some 1, some 2, none, "v", none, none, none, none, none⟩
    ∧ FlowRunInfo.deserialize (serialize_flow_run_info (mkRun 0 .Completed))
      = .ok (mkRun 0 .Completed) :=
  run_info_roundtrip Nat
    ⟨some "n", some "f", some "r", .Completed, none, some 5, none, none, none,
      some 0, some 1, some 2, none, "v", none, none, none, none, none⟩
    (mkRun 0 .Completed) rfl rfl rfl rfl

/-! ## Run output path configuration

Embeds `Configuration._validate` (`promptflow/_sdk/_configuration.py`) and
`Run._generate_output_path` (`promptflow/_sdk/entities/_run.py`).  Paths are
modelled as normalized absolute POSIX strings, `Path.resolve()` as the
identity on them, and `/`-joins as string concatenation with `"/"`.  The
constant `FLOW_DIRECTORY_MACRO_IN_CONFIG` lives in `_sdk/_constants.py`,
which is absent from the sources; its value is modelled from the spec
(macro `${flow_directory}`, §4.11), matching the hint text in
`_configuration.py`. -/

def FLOW_DIRECTORY_MACRO_IN_CONFIG : String := "${flow_directory}"

def RUN_OUTPUT_PATH : String := "run.output_path"

/-- Python `value.rstrip("/")`: drop trailing slash characters. -/
def rstrip_slash (s : String) : String :=
  String.mk ((s.data.reverse.dropWhile (fun c => c == '/')).reverse)

/-- Python `str.endswith`. -/
def ends_with (s post : String) : Bool :=
  post.data.isSuffixOf s.data

/-- Python `str.replace(pat, rep)`: replace all non-overlapping occurrences,
left to right.  The fuel argument (instantiated with the string length) only
makes the recursion structural; each step consumes at least one character.
Python would insert `rep` at every position for an empty `pat`; the only
pattern used here (the flow-directory macro) is non-empty. -/
def replaceL (pat rep : List Char) : Nat → List Char → List Char
  | _, [] => []
  | 0, s => s
  | fuel + 1, c :: rest =>
    if pat ≠ [] ∧ pat.isPrefixOf (c :: rest) then
      rep ++ replaceL pat rep fuel ((c :: rest).drop pat.length)
    else c :: replaceL pat rep fuel rest

def str_replace (s pat rep : String) : String :=
  String.mk (replaceL pat.data rep.data s.data.length s.data)

/-- Embeds `Configuration._validate`: only the `run.output_path` key is
checked, and only for a value that (after stripping trailing slashes) ends
with the flow-directory macro; that raises `InvalidConfigValue`. -/
def config_validate (key value : String) : Except String Unit :=
  if key = RUN_OUTPUT_PATH then
    if ends_with (rstrip_slash value) FLOW_DIRECTORY_MACRO_IN_CONFIG then
      .error "InvalidConfigValue"
    else .ok ()
  else .ok ()

/-- Embeds `Run._generate_output_path`: with no configured path, the default
`$HOME/.promptflow/.runs`; with a configured path, substitute the macro and
resolve; if the result equals the flow directory an internal exception is
raised, and that exception — like any other resolution failure — is caught,
falling back to the default; finally the run name is appended. -/
def generate_output_path (config_run_output_path : Option String)
    (flow_dir home name : String) : String :=
  match config_run_output_path with
  | none => home ++ "/.promptflow/.runs/" ++ name
  | some p =>
    let sub := str_replace p FLOW_DIRECTORY_MACRO_IN_CONFIG flow_dir
    if sub = flow_dir then home ++ "/.promptflow/.runs/" ++ name
    else sub ++ "/" ++ name

/-- C6, counterexample: a configured `run.output_path` equal to the flow
directory itself (no macro): substituting the macro yields the flow directory
itself, yet `Configuration._validate` accepts the value — the configuration is
not rejected with `InvalidConfigValue`. -/
theorem output_path_flow_dir_literal_not_rejected :
    str_replace "/flows/myflow" FLOW_DIRECTORY_MACRO_IN_CONFIG "/flows/myflow"
        = "/flows/myflow"
    ∧ config_validate RUN_OUTPUT_PATH "/flows/myflow" = .ok () := by
  exact ⟨by decide, rfl⟩

/-- C6 (amended): a configured `run.output_path` that, after stripping
trailing slashes, ends with the `${flow_directory}` macro is rejected with
`InvalidConfigValue` at configuration time; at runtime, a configured path
whose macro substitution yields the flow directory itself falls back to
`$HOME/.promptflow/.runs/<name>` (as does an absent configuration). -/
theorem run_output_path_validation_and_fallback :
    (∀ v, ends_with (rstrip_slash v) FLOW_DIRECTORY_MACRO_IN_CONFIG = true →
        config_validate RUN_OUTPUT_PATH v = .error "InvalidConfigValue")
    ∧ (∀ p flow_dir home name,
        str_replace p FLOW_DIRECTORY_MACRO_IN_CONFIG flow_dir = flow_dir →
        generate_output_path (some p) flow_dir home name
          = home ++ "/.promptflow/.runs/" ++ name)
    ∧ (∀ flow_dir home name,
        generate_output_path none flow_dir home name
          = home ++ "/.promptflow/.runs/" ++ name) := by
  refine ⟨?_, ?_, fun flow_dir home name => rfl⟩
  · intro v hv
    simp [config_validate, hv]
  · intro p flow_dir home name hp
    simp [generate_output_path, hp]

theorem run_output_path_validation_and_fallback_witness :
    config_validate RUN_OUTPUT_PATH "${flow_directory}" = .error "InvalidConfigValue"
    ∧ generate_output_path (some "${flow_directory}") "/flows/web" "/home/u" "run1"
        = "/home/u/.promptflow/.runs/run1" :=
  ⟨run_output_path_validation_and_fallback.1 "${flow_directory}" (by decide),
    run_output_path_validation_and_fallback.2.1 "${flow_directory}" "/flows/web"
      "/home/u" "run1" (by decide)⟩

/-! ## Tracer

Embeds `Tracer` (`promptflow/_core/tracer.py`).  Python traces are mutable
objects shared between `_traces`, `_trace_stack` and parents' `children`
lists; the embedding makes that sharing explicit through an arena: trace
nodes live in `arena` (indexed by position), and `roots` (`_traces`),
`stack` (`_trace_stack`, top at the end) and `children` hold arena indices.
Timestamps are abstract `Nat`s (0 = Python-falsy "unset");
`to_serializable` of the abstract input payload is the identity. -/

structure TraceNode (V : Type) where
  name : String
  ttype : String
  node_name : Option String
  start_time : Nat
  end_time : Option Nat
  inputs : V
  output : Option V
  error : Option String
  children : List Nat
deriving DecidableEq

structure Tracer (V : Type) where
  run_id : String
  node_name : Option String
  arena : List (TraceNode V)
  roots : List Nat
  stack : List Nat
deriving DecidableEq

/-- Embeds `Tracer.start_tracing`: when a tracer is already active, warn and
keep it; otherwise activate a fresh tracer for `run_id`. -/
def Tracer.start_tracing (active : Option (Tracer V)) (run_id : String)
    (node_name : Option String) : Option (Tracer V) :=
  match active with
  | some t => some t
  | none => some ⟨run_id, node_name, [], [], []⟩

/-- Embeds `Tracer._push`: give the trace its start time if unset; an empty
stack makes it a root (with the tracer's node name), otherwise it is appended
to the `children` of the trace on top of the stack; either way it is pushed
onto the stack. -/
def Tracer.push (t : Tracer V) (now : Nat) (name ttype : String)
    (start_time : Nat) (inputs : V) : Tracer V :=
  let st := if start_time = 0 then now else start_time
  let idx := t.arena.length
  match t.stack.getLast? with
  | none =>
      let node : TraceNode V := ⟨name, ttype, t.node_name, st, none, inputs, none, none, []⟩
      { t with arena := t.arena ++ [node], roots := t.roots ++ [idx],
               stack := t.stack ++ [idx] }
  | some p =>
      match t.arena[p]? with
      | none => t
      | some parent =>
          let node : TraceNode V := ⟨name, ttype, none, st, none, inputs, none, none, []⟩
          { t with
              arena := (t.arena.set p
                { parent with children := parent.children ++ [idx] }) ++ [node],
              stack := t.stack ++ [idx] }

/-- Embeds `Tracer._pop`: set output/error if given, stamp the end time on the
top-of-stack trace, drop it from the stack and return the output; `none`
models the `IndexError` on an empty stack. -/
def Tracer.pop (t : Tracer V) (now : Nat) (output : Option V)
    (error : Option String) : Option (Tracer V × Option V) :=
  match t.stack.getLast? with
  | none => none
  | some p =>
    match t.arena[p]? with
    | none => none
    | some node =>
      let node' : TraceNode V :=
        { node with
            output := match output with | some v => some v | none => node.output,
            error := match error with | some e => some e | none => node.error,
            end_time := some now }
      some ({ t with arena := t.arena.set p node', stack := t.stack.dropLast }, output)

/-- Embeds `Tracer.end_tracing`: with no active tracer, warn and return `[]`;
with a mismatched run id, warn, return `[]` and keep the tracer active; with
the matching run id, deactivate and return the serialized root traces (the
roots and the arena they point into). -/
def Tracer.end_tracing (active : Option (Tracer V)) (run_id : Option String) :
    (List Nat × List (TraceNode V)) × Option (Tracer V) :=
  match active with
  | none => (([], []), none)
  | some t =>
    match run_id with
    | some rid =>
        if t.run_id ≠ rid then (([], []), some t)
        else ((t.roots, t.arena), none)
    | none => ((t.roots, t.arena), none)

/-- C7: for a tracer activated by `start_tracing(run_id, node_name)`: a push
onto an empty stack appends the trace to the root list, a push onto a
non-empty stack appends it to the `children` of the top-of-stack trace (in
both cases pushing it onto the stack), a pop stamps the end time on the top
frame and removes it from the stack, and `end_tracing(run_id)` with the
matching run id deactivates the tracer and returns its root traces. -/
theorem tracer_push_pop_semantics {V : Type} (t : Tracer V) (now : Nat)
    (name ttype : String) (st : Nat) (inputs : V) :
    (∀ run_id node_name,
        Tracer.start_tracing (V := V) none run_id node_name
          = some ⟨run_id, node_name, [], [], []⟩)
    ∧ (t.stack = [] →
        t.push now name ttype st inputs
          = { t with
                arena := t.arena ++
                  [⟨name, ttype, t.node_name, if st = 0 then now else st,
                    none, inputs, none, none, []⟩],
                roots := t.roots ++ [t.arena.length],
                stack := t.stack ++ [t.arena.length] })
    ∧ (∀ p parent, t.stack.getLast? = some p → t.arena[p]? = some parent →
        (t.push now name ttype st inputs).arena[p]?
            = some { parent with children := parent.children ++ [t.arena.length] }
        ∧ (t.push now name ttype st inputs).roots = t.roots
        ∧ (t.push now name ttype st inputs).stack = t.stack ++ [t.arena.length])
    ∧ (∀ p node output error, t.stack.getLast? = some p → t.arena[p]? = some node →
        ∃ t', t.pop now output error = some (t', output)
          ∧ t'.stack = t.stack.dropLast
          ∧ (t'.arena[p]?).map TraceNode.end_time = some (some now))
    ∧ (Tracer.end_tracing (some t) (some t.run_id) = ((t.roots, t.arena), none)) := by
  refine ⟨fun run_id node_name => rfl, ?_, ?_, ?_, ?_⟩
  · intro hs
    simp [Tracer.push, hs]
  · intro p parent hp harena
    have hlt : p < t.arena.length := by
      by_contra hge
      rw [List.getElem?_eq_none (by omega)] at harena
      exact Option.noConfusion harena
    refine ⟨?_, ?_, ?_⟩
    · simp only [Tracer.push, hp, harena]
      rw [List.getElem?_append_left (by simpa using hlt)]
      simp [List.getElem?_set_self hlt]
    · simp [Tracer.push, hp, harena]
    · simp [Tracer.push, hp, harena]
  · intro p node output error hp harena
    have hlt : p < t.arena.length := by
      by_contra hge
      rw [List.getElem?_eq_none (by omega)] at harena
      exact Option.noConfusion harena
    refine ⟨{ t with
        arena := t.arena.set p
          { node with
              output := match output with | some v => some v | none => node.output,
              error := match error with | some e => some e | none => node.error,
              end_time := some now },
        stack := t.stack.dropLast }, ?_, rfl, ?_⟩
    · simp only [Tracer.pop, hp, harena]
    · simp [List.getElem?_set_self hlt]
  · simp [Tracer.end_tracing]

theorem tracer_push_pop_semantics_witness :
    (Tracer.start_tracing (V := Nat) none "run1" (some "nodeA")
        = some ⟨"run1", some "nodeA", [], [], []⟩)
    ∧ ((⟨"run1", some "nodeA", [], [], []⟩ : Tracer Nat).push 5 "tool" "Tool" 0 7
        = ⟨"run1", some "nodeA",
            [⟨"tool", "Tool", some "nodeA", 5, none, 7, none, none, []⟩], [0], [0]⟩) := by
  constructor
  · exact (tracer_push_pop_semantics (V := Nat) ⟨"", none, [], [], []⟩ 0 "" "" 0 0).1
      "run1" (some "nodeA")
  · have h := (tracer_push_pop_semantics (V := Nat)
      ⟨"run1", some "nodeA", [], [], []⟩ 5 "tool" "Tool" 0 7).2.1 rfl
    simpa using h

/-! ## Line execution pool: per-line timeout

`promptflow/executor/_line_execution_process_pool.py` is not among the
sources; the pool's behaviour is modelled from the spec (§4.8): a worker that
does not return within `line_timeout_sec` is terminated and replaced by a
synthetic failed `LineResult` with error kind `LineExecutionTimeoutError`,
and the pool continues with the remaining lines.  The error message and its
`UserError` classification come from `LineExecutionTimeoutError`
(`promptflow/executor/_errors.py`), which is among the sources. -/

/-- Embeds `LineExecutionTimeoutError.__init__`:
`f"Line {line_number} execution timeout for exceeding {timeout} seconds"`;
the class subclasses `UserErrorException`, so its error code is `UserError`. -/
def line_timeout_message (line_number timeout : Nat) : String :=
  "Line " ++ natStr line_number ++ " execution timeout for exceeding "
    ++ natStr timeout ++ " seconds"

/-- The per-line outcome surfaced by the pool (status, error code and message
of the line run info, plus the output). -/
structure LineResult (V : Type) where
  index : Nat
  status : Status
  error_code : Option String
  error_message : Option String
  output : Option V
deriving DecidableEq

/-- One line handed to the pool: its line number, how long its worker runs,
and the `LineResult` the worker would produce if it finished. -/
structure LineTask (V : Type) where
  line_number : Nat
  duration : Nat
  result : LineResult V
deriving DecidableEq

/-- Modelled from the spec: a worker that does not return within the timeout
is terminated and a synthetic failed result with the
`LineExecutionTimeoutError` message (classified `UserError`) replaces it. -/
def run_one_line (timeout : Nat) (task : LineTask V) : LineResult V :=
  if timeout < task.duration then
    { index := task.line_number, status := .Failed, error_code := some "UserError",
      error_message := some (line_timeout_message task.line_number timeout),
      output := none }
  else task.result

/-- Modelled from the spec: the pool runs every line and never aborts the
batch because a line failed or timed out. -/
def pool_run (timeout : Nat) (tasks : List (LineTask V)) : List (LineResult V) :=
  tasks.map (run_one_line timeout)

/-- C3: a line whose worker exceeds `line_timeout_sec` yields a failed
`LineResult` whose error is classified `UserError` with message
`"Line {line_number} execution timeout for exceeding {timeout} seconds"`,
and the pool still produces a result for every line of the batch. -/
theorem line_timeout_failed_result_batch_continues {V : Type} (timeout : Nat)
    (tasks : List (LineTask V)) :
    (pool_run timeout tasks).length = tasks.length
    ∧ (∀ t ∈ tasks, run_one_line timeout t ∈ pool_run timeout tasks)
    ∧ (∀ t : LineTask V, timeout < t.duration →
        run_one_line timeout t
          = { index := t.line_number, status := .Failed,
              error_code := some "UserError",
              error_message := some (line_timeout_message t.line_number timeout),
              output := none }) := by
  refine ⟨by simp [pool_run], ?_, ?_⟩
  · intro t ht
    exact List.mem_map_of_mem (run_one_line timeout) ht
  · intro t ht
    simp [run_one_line, ht]

theorem line_timeout_failed_result_batch_continues_witness :
    run_one_line (V := Nat) 1 ⟨0, 5, ⟨0, .Completed, none, none, some 9⟩⟩
      = ⟨0, .Failed, some "UserError",
          some "Line 0 execution timeout for exceeding 1 seconds", none⟩ := by
  have h := (line_timeout_failed_result_batch_continues (V := Nat) 1
      [⟨0, 5, ⟨0, .Completed, none, none, some 9⟩⟩]).2.2
    ⟨0, 5, ⟨0, .Completed, none, none, some 9⟩⟩ (by decide)
  rw [h]
  simp only [line_timeout_message, natStr_0, natStr_1]
  decide

/-! ## Batch input processor: merge errors

`promptflow/batch/_batch_inputs_processor.py` is not among the sources (only
its unit test is); `_merge_input_dicts_by_line` is modelled from the spec
(§4.7): load each alias as a record list; an empty alias list is an
`InputMappingError`; lists in which no record carries a `line_number` key
must all have the same length, otherwise an `InputMappingError` lists the
per-alias lengths; records with explicit `line_number`s join on them, the
rest align by index, and merged lines are emitted in ascending line number.
The error messages are pinned by the unit test
(`tests/executor/unittests/batch/test_batch_inputs_processor.py`). -/

/-- One input record: the value of its `line_number` key (when present) and
its payload. -/
structure Rec (V : Type) where
  line_number : Option Nat
  payload : V
deriving DecidableEq

def has_line_number (r : Rec V) : Bool := r.line_number.isSome

/-- Python `f"'{s}'"`. -/
def py_quote (s : String) : String := "\x27" ++ s ++ "\x27"

/-- Python `repr` of the `{alias: length}` dict. -/
def render_lengths (ls : List (String × Nat)) : String :=
  "\x7b" ++ String.intercalate ", "
      (ls.map (fun kv => py_quote kv.1 ++ ": " ++ natStr kv.2)) ++ "\x7d"

def empty_list_message (key : String) : String :=
  "The input for batch run is incorrect. Input from key " ++ py_quote key
    ++ " is an empty list, which means we cannot generate a single line input "
    ++ "for the flow run. Please rectify the input and try again."

def length_mismatch_message (ls : List (String × Nat)) : String :=
  "The input for batch run is incorrect. Line numbers are not aligned. "
    ++ "Some lists have dictionaries missing the " ++ py_quote "line_number"
    ++ " key, and the lengths of these lists are different. List lengths are: "
    ++ render_lengths ls ++ ". Please make sure these lists have the same length "
    ++ "or add " ++ py_quote "line_number" ++ " key to each dictionary."

/-- Line numbers of one alias: explicit `line_number`s when every record has
one, positional indices otherwise. -/
def alias_lines (rs : List (Rec V)) : List (Nat × Rec V) :=
  if rs.all has_line_number then rs.map (fun r => (r.line_number.getD 0, r))
  else rs.enum

def insertAsc (n : Nat) : List Nat → List Nat
  | [] => [n]
  | m :: ms => if n ≤ m then n :: m :: ms else m :: insertAsc n ms

def sortAsc (l : List Nat) : List Nat := l.foldr insertAsc []

/-- The inner join of the aliases on line number, ascending. -/
def merge_lines (inputs : List (String × List (Rec V))) :
    List (Nat × List (String × Rec V)) :=
  match inputs.map (fun kv => (kv.1, alias_lines kv.2)) with
  | [] => []
  | first :: rest =>
    let nums := rest.foldl (fun acc kv => acc.inter (kv.2.map Prod.fst))
      (first.2.map Prod.fst)
    (sortAsc nums.eraseDups).map (fun n =>
      (n, (first :: rest).filterMap (fun kv =>
        (kv.2.find? (fun p => p.1 == n)).map (fun p => (kv.1, p.2)))))

/-- Modelled from the spec: `_merge_input_dicts_by_line` — empty alias check,
alignment check on the lists with no `line_number` keys, then the join. -/
def merge_input_dicts_by_line (inputs : List (String × List (Rec V))) :
    Except String (List (Nat × List (String × Rec V))) :=
  match inputs.find? (fun kv => kv.2.isEmpty) with
  | some kv => .error (empty_list_message kv.1)
  | none =>
    let lengths := (inputs.filter (fun kv => !kv.2.any has_line_number)).map
      (fun kv => (kv.1, kv.2.length))
    if 1 < (lengths.map Prod.snd).eraseDups.length then
      .error (length_mismatch_message lengths)
    else
      .ok (merge_lines inputs)

/-- C5: an alias mapping to an empty record list fails the merge with an
`InputMappingError` whose message names the key and the empty list; with no
empty alias, differing lengths among the record lists lacking `line_number`
keys fail the merge with an `InputMappingError` whose message lists the
per-alias lengths. -/
theorem merge_input_dicts_error_cases {V : Type}
    (inputs : List (String × List (Rec V))) :
    (∀ kv, inputs.find? (fun kv => kv.2.isEmpty) = some kv →
        merge_input_dicts_by_line inputs = .error (empty_list_message kv.1))
    ∧ (inputs.find? (fun kv => kv.2.isEmpty) = none →
        1 < (((inputs.filter (fun kv => !kv.2.any has_line_number)).map
              (fun kv => (kv.1, kv.2.length))).map Prod.snd).eraseDups.length →
        merge_input_dicts_by_line inputs
          = .error (length_mismatch_message
              ((inputs.filter (fun kv => !kv.2.any has_line_number)).map
                (fun kv => (kv.1, kv.2.length))))) := by
  constructor
  · intro kv hkv
    simp [merge_input_dicts_by_line, hkv]
  · intro hempty hlen
    simp only [merge_input_dicts_by_line, hempty]
    rw [if_pos hlen]

set_option maxRecDepth 4000 in
theorem merge_input_dicts_error_cases_witness :
    merge_input_dicts_by_line (V := Nat) [("baseline", [])]
        = .error (empty_list_message "baseline")
    ∧ merge_input_dicts_by_line (V := Nat)
        [("data", [⟨none, 0⟩, ⟨none, 0⟩]), ("baseline", [⟨none, 0⟩])]
        = .error (length_mismatch_message [("data", 2), ("baseline", 1)])
    ∧ empty_list_message "baseline"
        = "The input for batch run is incorrect. Input from key \x27baseline\x27 "
          ++ "is an empty list, which means we cannot generate a single line input "
          ++ "for the flow run. Please rectify the input and try again."
    ∧ length_mismatch_message [("data", 2), ("baseline", 1)]
        = "The input for batch run is incorrect. Line numbers are not aligned. "
          ++ "Some lists have dictionaries missing the \x27line_number\x27 key, "
          ++ "and the lengths of these lists are different. List lengths are: "
          ++ "\x7b\x27data\x27: 2, \x27baseline\x27: 1\x7d. Please make sure these "
          ++ "lists have the same length or add \x27line_number\x27 key to each "
          ++ "dictionary." := by
  refine ⟨?_, ?_, ?_, ?_⟩
  · exact (merge_input_dicts_error_cases (V := Nat) [("baseline", [])]).1
      ("baseline", []) rfl
  · exact (merge_input_dicts_error_cases (V := Nat)
      [("data", [⟨none, 0⟩, ⟨none, 0⟩]), ("baseline", [⟨none, 0⟩])]).2
      rfl (by decide)
  · decide
  · simp only [length_mismatch_message, render_lengths, py_quote, List.map, natStr_1, natStr_2]
    decide
